import Mathlib

/-!
Shallow embedding of the `needs` library (src/needs/base.py): a `Need` is an
authorization predicate with an attached failure value, composable by
negation, and, or, xor.  Evaluation (`is_met`), the attached failure value
(`error`), scoped enforcement (`enforce`, modelling `__enter__`), and the
decorator (`guard_call`, modelling `__call__`) are translated directly from
the source.
-/

/-- Failure values: `generic` models the base class attribute
`Need.error = Exception`; `custom n` models an implementer-supplied error
class overriding that attribute. -/
inductive Failure where
  | generic : Failure
  | custom : Nat → Failure
deriving DecidableEq, Repr

/-- The composition structure of Needs: a leaf (base `Need(bool_)` with its
`error` attribute), `NegativeNeed`, `AndNeed`, `OrNeed`, `XorNeed`, each
holding references to its operand Needs, as in src/needs/base.py. -/
inductive Need where
  | leaf (bool_ : Bool) (err : Failure) : Need
  | NegativeNeed (parent_need : Need) : Need
  | AndNeed (first_need second_need : Need) : Need
  | OrNeed (first_need second_need : Need) : Need
  | XorNeed (first_need second_need : Need) : Need
deriving DecidableEq, Repr

namespace Need

/-- Evaluation, translating each `is_met` method: base `Need.is_met` returns
the stored boolean, `NegativeNeed.is_met` the negation of the parent,
`AndNeed`, `OrNeed`, `XorNeed` the boolean combination of the operands. -/
def is_met : Need → Bool
  | leaf b _ => b
  | NegativeNeed p => !(is_met p)
  | AndNeed f s => is_met f && is_met s
  | OrNeed f s => is_met f || is_met s
  | XorNeed f s => is_met f != is_met s

/-- The `error` attribute of each class: a leaf carries its own value;
`NegativeNeed.error` is a property returning the parent need error;
`OrNeed.error` is a property returning the second need error; `AndNeed` and
`XorNeed` define no `error`, so they inherit the base class attribute
`Need.error = Exception` (the generic failure). -/
def error : Need → Failure
  | leaf _ e => e
  | NegativeNeed p => error p
  | AndNeed _ _ => Failure.generic
  | OrNeed _ s => error s
  | XorNeed _ _ => Failure.generic

/-- Enforcement, translating `__enter__`.  `AndNeed.__enter__` checks the
first operand, raising its error, then the second, raising its error.
`XorNeed.__enter__` raises the second operand error when neither is met and
the first operand error when both are met.  All other classes use the base
`Need.__enter__`: raise `self.error` when the need is not met. -/
def enforce : Need → Except Failure Unit
  | AndNeed f s =>
      if is_met f = false then Except.error (error f)
      else if is_met s = false then Except.error (error s)
      else Except.ok ()
  | XorNeed f s =>
      if is_met f = false ∧ is_met s = false then Except.error (error s)
      else if is_met f = true ∧ is_met s = true then Except.error (error f)
      else Except.ok ()
  | n => if is_met n = false then Except.error (error n) else Except.ok ()

/-- Decorator form, translating `Need.__call__`: the wrapped callable first
enters the need (propagating its failure) and only then invokes `f`. -/
def guard_call {α β : Type} (n : Need) (f : α → β) (x : α) : Except Failure β :=
  match enforce n with
  | Except.error e => Except.error e
  | Except.ok _ => Except.ok (f x)

/-- The failure value that `enforce` raises when the need is not met: for
`AndNeed` the first unmet operand attached error, for `XorNeed` the second
operand attached error when neither is met and the first when both are, and
the need own `error` attribute otherwise.  This characterizes the raise
sites of the three `__enter__` implementations. -/
def top_failure : Need → Failure
  | AndNeed f s => if is_met f = false then error f else error s
  | XorNeed f s => if is_met f = false ∧ is_met s = false then error s else error f
  | n => error n

/-- Modelled from the spec: the failure value the specification associates
with every Need — for leaves the implementer-supplied value, for composites
derived recursively from the operands per the §4 policy (negate: same as
parent; and: first operand when the first is unmet, else second; or: always
the second; xor: first when both are met, else second). -/
def spec_failure : Need → Failure
  | leaf _ e => e
  | NegativeNeed p => spec_failure p
  | AndNeed f s => if is_met f = false then spec_failure f else spec_failure s
  | OrNeed _ s => spec_failure s
  | XorNeed f s => if is_met f = true ∧ is_met s = true then spec_failure f else spec_failure s

/-- Structural size of a Need composition (number of constructors). -/
def size : Need → Nat
  | leaf _ _ => 1
  | NegativeNeed p => size p + 1
  | AndNeed f s => size f + size s + 1
  | OrNeed f s => size f + size s + 1
  | XorNeed f s => size f + size s + 1

/-- Fuel-bounded evaluator: returns `none` when the fuel runs out, otherwise
the boolean value of the need computed by the same recursion as `is_met`. -/
def is_met_fuel : Nat → Need → Option Bool
  | 0, _ => none
  | _ + 1, leaf b _ => some b
  | fuel + 1, NegativeNeed p =>
      match is_met_fuel fuel p with
      | some x => some (!x)
      | none => none
  | fuel + 1, AndNeed f s =>
      match is_met_fuel fuel f, is_met_fuel fuel s with
      | some x, some y => some (x && y)
      | _, _ => none
  | fuel + 1, OrNeed f s =>
      match is_met_fuel fuel f, is_met_fuel fuel s with
      | some x, some y => some (x || y)
      | _, _ => none
  | fuel + 1, XorNeed f s =>
      match is_met_fuel fuel f, is_met_fuel fuel s with
      | some x, some y => some (x != y)
      | _, _ => none

/-- The pre-built always-satisfied need `no_need = Need()`. -/
def no_need : Need := leaf true Failure.generic

end Need

/-- The identity adapter `needs(need)` returning the need itself. -/
def needs (need : Need) : Need := need

lemma size_pos (n : Need) : 0 < Need.size n := by
  cases n <;> simp [Need.size]

lemma enforce_ok_iff (n : Need) : Need.enforce n = Except.ok () ↔ Need.is_met n = true := by
  cases n with
  | leaf b e => cases b <;> simp [Need.enforce, Need.is_met]
  | NegativeNeed p =>
      cases h : Need.is_met p <;> simp [Need.enforce, Need.is_met, h]
  | AndNeed f s =>
      cases hf : Need.is_met f <;> cases hs : Need.is_met s <;>
        simp [Need.enforce, Need.is_met, hf, hs]
  | OrNeed f s =>
      cases hf : Need.is_met f <;> cases hs : Need.is_met s <;>
        simp [Need.enforce, Need.is_met, hf, hs]
  | XorNeed f s =>
      cases hf : Need.is_met f <;> cases hs : Need.is_met s <;>
        simp [Need.enforce, Need.is_met, hf, hs]

lemma enforce_error_of_not_met (n : Need) (h : Need.is_met n = false) :
    Need.enforce n = Except.error (Need.top_failure n) := by
  cases n with
  | leaf b e => simp [Need.is_met] at h; simp [Need.enforce, Need.top_failure, Need.is_met, h]
  | NegativeNeed p =>
      simp [Need.enforce, Need.top_failure, h]
  | AndNeed f s =>
      simp [Need.is_met] at h
      cases hf : Need.is_met f with
      | false => simp [Need.enforce, Need.top_failure, hf]
      | true =>
          have hs : Need.is_met s = false := by
            cases hs : Need.is_met s with
            | false => rfl
            | true => rw [hf, hs] at h; simp at h
          simp [Need.enforce, Need.top_failure, hf, hs]
  | OrNeed f s =>
      simp [Need.enforce, Need.top_failure, h]
  | XorNeed f s =>
      simp [Need.is_met] at h
      cases hf : Need.is_met f <;> cases hs : Need.is_met s <;>
        simp [hf, hs] at h <;> simp [Need.enforce, Need.top_failure, hf, hs]

/-- C1: enforcing `a.and(b)` checks `a` first: if `a` is unmet the
enforcement fails with the failure value of `a` (whatever `b` evaluates to);
if `a` is met and `b` is unmet it fails with the failure value of `b`; if
both are met it succeeds. -/
theorem and_short_circuit (a b : Need) :
    (Need.is_met a = false →
      Need.enforce (Need.AndNeed a b) = Except.error (Need.error a)) ∧
    (Need.is_met a = true → Need.is_met b = false →
      Need.enforce (Need.AndNeed a b) = Except.error (Need.error b)) ∧
    (Need.is_met a = true → Need.is_met b = true →
      Need.enforce (Need.AndNeed a b) = Except.ok ()) := by
  refine ⟨fun ha => ?_, fun ha hb => ?_, fun ha hb => ?_⟩ <;>
    simp [Need.enforce, ha]
  · simp [hb]
  · simp [hb]

/-- Witness for C1 at concrete inputs covering all three branches (the first
with both operands unmet, so that the failure of the left operand wins). -/
theorem and_short_circuit_witness :
    Need.enforce (Need.AndNeed (Need.leaf false (Failure.custom 1)) (Need.leaf false (Failure.custom 2)))
      = Except.error (Failure.custom 1) ∧
    Need.enforce (Need.AndNeed (Need.leaf true (Failure.custom 1)) (Need.leaf false (Failure.custom 2)))
      = Except.error (Failure.custom 2) ∧
    Need.enforce (Need.AndNeed (Need.leaf true (Failure.custom 1)) (Need.leaf true (Failure.custom 2)))
      = Except.ok () :=
  ⟨(and_short_circuit (Need.leaf false (Failure.custom 1)) (Need.leaf false (Failure.custom 2))).1 rfl,
   (and_short_circuit (Need.leaf true (Failure.custom 1)) (Need.leaf false (Failure.custom 2))).2.1 rfl rfl,
   (and_short_circuit (Need.leaf true (Failure.custom 1)) (Need.leaf true (Failure.custom 2))).2.2 rfl rfl⟩

/-- C2: the failure value attached to `a.or(b)` is the failure value of the
second operand `b`; enforcing it succeeds exactly when at least one operand
is met, and when both are unmet it fails with the failure value of `b`. -/
theorem or_enforcement (a b : Need) :
    Need.error (Need.OrNeed a b) = Need.error b ∧
    (Need.enforce (Need.OrNeed a b) = Except.ok () ↔
      (Need.is_met a = true ∨ Need.is_met b = true)) ∧
    (Need.is_met a = false → Need.is_met b = false →
      Need.enforce (Need.OrNeed a b) = Except.error (Need.error b)) := by
  refine ⟨rfl, ?_, fun ha hb => ?_⟩
  · rw [enforce_ok_iff]
    cases ha : Need.is_met a <;> cases hb : Need.is_met b <;>
      simp [Need.is_met, ha, hb]
  · simp [Need.enforce, Need.is_met, Need.error, ha, hb]

/-- Witness for C2: both operands unmet fails with the second failure, and
one met operand makes enforcement succeed. -/
theorem or_enforcement_witness :
    Need.enforce (Need.OrNeed (Need.leaf false (Failure.custom 1)) (Need.leaf false (Failure.custom 2)))
      = Except.error (Failure.custom 2) ∧
    Need.enforce (Need.OrNeed (Need.leaf true (Failure.custom 1)) (Need.leaf false (Failure.custom 2)))
      = Except.ok () :=
  ⟨(or_enforcement (Need.leaf false (Failure.custom 1)) (Need.leaf false (Failure.custom 2))).2.2 rfl rfl,
   ((or_enforcement (Need.leaf true (Failure.custom 1)) (Need.leaf false (Failure.custom 2))).2.1).2 (Or.inl rfl)⟩

/-- C3: enforcing `a.xor(b)`: when neither operand is met it fails with the
failure value of the second operand `b`; when both are met it fails with the
failure value of the first operand `a`; when exactly one is met it
succeeds. -/
theorem xor_enforcement (a b : Need) :
    (Need.is_met a = false → Need.is_met b = false →
      Need.enforce (Need.XorNeed a b) = Except.error (Need.error b)) ∧
    (Need.is_met a = true → Need.is_met b = true →
      Need.enforce (Need.XorNeed a b) = Except.error (Need.error a)) ∧
    (Need.is_met a ≠ Need.is_met b →
      Need.enforce (Need.XorNeed a b) = Except.ok ()) := by
  refine ⟨fun ha hb => ?_, fun ha hb => ?_, fun hne => ?_⟩
  · simp [Need.enforce, ha, hb]
  · simp [Need.enforce, ha, hb]
  · cases ha : Need.is_met a <;> cases hb : Need.is_met b <;>
      rw [ha, hb] at hne <;> simp at hne <;> simp [Need.enforce, ha, hb]

/-- Witness for C3 at concrete inputs covering all three branches. -/
theorem xor_enforcement_witness :
    Need.enforce (Need.XorNeed (Need.leaf false (Failure.custom 1)) (Need.leaf false (Failure.custom 2)))
      = Except.error (Failure.custom 2) ∧
    Need.enforce (Need.XorNeed (Need.leaf true (Failure.custom 1)) (Need.leaf true (Failure.custom 2)))
      = Except.error (Failure.custom 1) ∧
    Need.enforce (Need.XorNeed (Need.leaf true (Failure.custom 1)) (Need.leaf false (Failure.custom 2)))
      = Except.ok () :=
  ⟨(xor_enforcement (Need.leaf false (Failure.custom 1)) (Need.leaf false (Failure.custom 2))).1 rfl rfl,
   (xor_enforcement (Need.leaf true (Failure.custom 1)) (Need.leaf true (Failure.custom 2))).2.1 rfl rfl,
   (xor_enforcement (Need.leaf true (Failure.custom 1)) (Need.leaf false (Failure.custom 2))).2.2 (by simp [Need.is_met])⟩

/-- C4 (code evaluated at the failing input): on the nested composition
`(unmet_custom1 and met) and met` — the shape of the repository test
`test_combination_errors` — enforcement surfaces the generic base failure,
not the recursively derived failure `custom 1` that the §4 policy selects,
because the inner `AndNeed` attached error is the inherited generic one. -/
theorem nested_and_error_not_derived :
    Need.is_met (Need.AndNeed (Need.AndNeed (Need.leaf false (Failure.custom 1)) (Need.leaf true Failure.generic)) (Need.leaf true Failure.generic)) = false ∧
    Need.enforce (Need.AndNeed (Need.AndNeed (Need.leaf false (Failure.custom 1)) (Need.leaf true Failure.generic)) (Need.leaf true Failure.generic))
      = Except.error Failure.generic ∧
    Need.spec_failure (Need.AndNeed (Need.AndNeed (Need.leaf false (Failure.custom 1)) (Need.leaf true Failure.generic)) (Need.leaf true Failure.generic))
      = Failure.custom 1 :=
  ⟨rfl, rfl, rfl⟩

/-- C5 (code evaluated at the failing input): the need
`unmet_custom3 or (unmet_custom1 xor unmet_custom2)` evaluates false, and
enforcing it fails — but with the generic base failure, not with the need
associated (spec-derived) failure `custom 2`, because the inner `XorNeed`
attached error is the inherited generic one. -/
theorem or_of_xor_error_not_derived :
    Need.is_met (Need.OrNeed (Need.leaf false (Failure.custom 3)) (Need.XorNeed (Need.leaf false (Failure.custom 1)) (Need.leaf false (Failure.custom 2)))) = false ∧
    Need.enforce (Need.OrNeed (Need.leaf false (Failure.custom 3)) (Need.XorNeed (Need.leaf false (Failure.custom 1)) (Need.leaf false (Failure.custom 2))))
      = Except.error Failure.generic ∧
    Need.spec_failure (Need.OrNeed (Need.leaf false (Failure.custom 3)) (Need.XorNeed (Need.leaf false (Failure.custom 1)) (Need.leaf false (Failure.custom 2))))
      = Failure.custom 2 :=
  ⟨rfl, rfl, rfl⟩

/-- C6: evaluation is compositional: `a.and(b)` evaluates to the conjunction
of the operand evaluations, `a.or(b)` to the disjunction, and `a.xor(b)` to
their boolean inequality. -/
theorem composite_evaluation (a b : Need) :
    Need.is_met (Need.AndNeed a b) = (Need.is_met a && Need.is_met b) ∧
    Need.is_met (Need.OrNeed a b) = (Need.is_met a || Need.is_met b) ∧
    Need.is_met (Need.XorNeed a b) = (Need.is_met a != Need.is_met b) :=
  ⟨rfl, rfl, rfl⟩

/-- C7: `a.negate()` evaluates to the complement of the evaluation of `a`,
and its failure value is the same as the failure value of `a`. -/
theorem negate_evaluation_and_error (a : Need) :
    Need.is_met (Need.NegativeNeed a) = !(Need.is_met a) ∧
    Need.error (Need.NegativeNeed a) = Need.error a :=
  ⟨rfl, rfl⟩

/-- C8: the guarded callable built from need `n` and function `f`: when `n`
evaluates false the result does not depend on `f` (so `f` is never invoked)
and it propagates exactly the failure that `enforce` on `n` produces; when
`n` evaluates true it returns the result of `f`. -/
theorem guard_call_spec (n : Need) (f g : Nat → Nat) (x : Nat) :
    (Need.is_met n = false →
      Need.guard_call n f x = Need.guard_call n g x ∧
      Need.guard_call n f x = (Need.enforce n).map (fun _ => f x) ∧
      Need.guard_call n f x = Except.error (Need.top_failure n)) ∧
    (Need.is_met n = true → Need.guard_call n f x = Except.ok (f x)) := by
  constructor
  · intro h
    have he := enforce_error_of_not_met n h
    refine ⟨?_, ?_, ?_⟩ <;> simp [Need.guard_call, he, Except.map]
  · intro h
    have he := (enforce_ok_iff n).2 h
    simp [Need.guard_call, he]

/-- Witness for C8: an unmet leaf gives the same failing result for two
different wrapped functions, equal to the enforcement failure; a met leaf
runs the function. -/
theorem guard_call_spec_witness :
    Need.guard_call (Need.leaf false (Failure.custom 7)) (fun y => y) 0
      = Need.guard_call (Need.leaf false (Failure.custom 7)) (fun y => y + 1) 0 ∧
    Need.guard_call (Need.leaf true (Failure.custom 7)) (fun y => y + 1) 5
      = Except.ok ((fun y : Nat => y + 1) 5) :=
  ⟨((guard_call_spec (Need.leaf false (Failure.custom 7)) (fun y => y) (fun y => y + 1) 0).1 rfl).1,
   (guard_call_spec (Need.leaf true (Failure.custom 7)) (fun y => y + 1) (fun y => y) 5).2 rfl⟩

/-- C9: evaluation of a finitely built Need terminates with a defined
boolean: the fuel-bounded evaluator, given at least the structural size of
the composition as fuel, returns `some` of the evaluation — it never runs
out of fuel, fails, or diverges. -/
theorem is_met_total (n : Need) (fuel : Nat) (h : Need.size n ≤ fuel) :
    Need.is_met_fuel fuel n = some (Need.is_met n) := by
  induction n generalizing fuel with
  | leaf b e =>
      cases fuel with
      | zero => exact absurd h (by simp [Need.size])
      | succ k => rfl
  | NegativeNeed p ih =>
      cases fuel with
      | zero => exact absurd h (by simp [Need.size])
      | succ k =>
          have hp : Need.size p ≤ k := by simp [Need.size] at h; omega
          simp [Need.is_met_fuel, ih k hp, Need.is_met]
  | AndNeed f s ihf ihs =>
      cases fuel with
      | zero => exact absurd h (by simp [Need.size])
      | succ k =>
          have hf : Need.size f ≤ k := by simp [Need.size] at h; omega
          have hs : Need.size s ≤ k := by simp [Need.size] at h; omega
          simp [Need.is_met_fuel, ihf k hf, ihs k hs, Need.is_met]
  | OrNeed f s ihf ihs =>
      cases fuel with
      | zero => exact absurd h (by simp [Need.size])
      | succ k =>
          have hf : Need.size f ≤ k := by simp [Need.size] at h; omega
          have hs : Need.size s ≤ k := by simp [Need.size] at h; omega
          simp [Need.is_met_fuel, ihf k hf, ihs k hs, Need.is_met]
  | XorNeed f s ihf ihs =>
      cases fuel with
      | zero => exact absurd h (by simp [Need.size])
      | succ k =>
          have hf : Need.size f ≤ k := by simp [Need.size] at h; omega
          have hs : Need.size s ≤ k := by simp [Need.size] at h; omega
          simp [Need.is_met_fuel, ihf k hf, ihs k hs, Need.is_met]

/-- Witness for C9 on a nested composition of size 6 evaluated with fuel 6. -/
theorem is_met_total_witness :
    Need.size (Need.AndNeed (Need.NegativeNeed (Need.leaf false (Failure.custom 1))) (Need.OrNeed (Need.leaf true Failure.generic) (Need.leaf false (Failure.custom 2)))) ≤ 6 ∧
    Need.is_met_fuel 6 (Need.AndNeed (Need.NegativeNeed (Need.leaf false (Failure.custom 1))) (Need.OrNeed (Need.leaf true Failure.generic) (Need.leaf false (Failure.custom 2))))
      = some (Need.is_met (Need.AndNeed (Need.NegativeNeed (Need.leaf false (Failure.custom 1))) (Need.OrNeed (Need.leaf true Failure.generic) (Need.leaf false (Failure.custom 2))))) :=
  ⟨by decide,
   is_met_total (Need.AndNeed (Need.NegativeNeed (Need.leaf false (Failure.custom 1))) (Need.OrNeed (Need.leaf true Failure.generic) (Need.leaf false (Failure.custom 2)))) 6 (by decide)⟩

/-- C10: the failure value attached to `a.and(b)` and to `a.xor(b)` is the
generic default inherited from the base class, for all operands; and when
such an unmet composite is the operand whose failure an enclosing composite
selects (the second operand of an `or` with both sides unmet, or the first
operand of an `and`), the enclosing enforcement fails with the generic
default failure. -/
theorem composite_generic_error (a b c : Need) :
    Need.error (Need.AndNeed a b) = Failure.generic ∧
    Need.error (Need.XorNeed a b) = Failure.generic ∧
    (Need.is_met c = false → Need.is_met (Need.AndNeed a b) = false →
      Need.enforce (Need.OrNeed c (Need.AndNeed a b)) = Except.error Failure.generic) ∧
    (Need.is_met (Need.XorNeed a b) = false →
      Need.enforce (Need.AndNeed (Need.XorNeed a b) c) = Except.error Failure.generic) := by
  refine ⟨rfl, rfl, fun hc hab => ?_, fun hab => ?_⟩
  · simp [Need.is_met] at hab
    simp [Need.enforce, Need.is_met, Need.error, hc]
    exact hab
  · simp [Need.enforce, Need.error, hab]

/-- Witness for C10: an unmet and-composite of custom-failure leaves inside
an or, and an unmet xor-composite of custom-failure leaves inside an and,
both surface the generic failure. -/
theorem composite_generic_error_witness :
    Need.enforce (Need.OrNeed (Need.leaf false (Failure.custom 3)) (Need.AndNeed (Need.leaf false (Failure.custom 1)) (Need.leaf false (Failure.custom 2))))
      = Except.error Failure.generic ∧
    Need.enforce (Need.AndNeed (Need.XorNeed (Need.leaf true (Failure.custom 1)) (Need.leaf true (Failure.custom 2))) (Need.leaf true Failure.generic))
      = Except.error Failure.generic :=
  ⟨(composite_generic_error (Need.leaf false (Failure.custom 1)) (Need.leaf false (Failure.custom 2)) (Need.leaf false (Failure.custom 3))).2.2.1 rfl rfl,
   (composite_generic_error (Need.leaf true (Failure.custom 1)) (Need.leaf true (Failure.custom 2)) (Need.leaf true Failure.generic)).2.2.2 rfl⟩
